import Mathlib

/-!
# Verification of the room-list filter script (src/js/room_list.js)

The script keeps three tri-state filters (`null` / `true` / `false` in the
source, i.e. Unset / Require / Exclude), a button per filter dimension, and a
static collection of room cards.  Each card exposes three dataset attributes
(`isDirect`, `isEncrypted`, `hasUnread`), each an optional string, and a
mutable `display` style.  We embed the script's state and its three functions
(`checkFilter`, `applyFilters`, `toggleFilter`, plus `updateButtonStyles`)
as pure Lean functions over an explicit application state.
-/

/-- The three filter dimensions (`direct`, `encrypted`, `unread`). -/
inductive FilterDimension where
  | direct
  | encrypted
  | unread
deriving DecidableEq, Repr

/-- The module-level `filters` object: each dimension holds `null`
(`none`, disabled), `true` (`some true`, enabled) or `false`
(`some false`, inverted). -/
structure Filters where
  direct : Option Bool
  encrypted : Option Bool
  unread : Option Bool
deriving DecidableEq, Repr

/-- Dynamic property read `filters[filterName]`. -/
def Filters.get (f : Filters) (d : FilterDimension) : Option Bool :=
  match d with
  | .direct => f.direct
  | .encrypted => f.encrypted
  | .unread => f.unread

/-- Dynamic property write `filters[filterName] = v`. -/
def Filters.set (f : Filters) (d : FilterDimension) (v : Option Bool) : Filters :=
  match d with
  | .direct => { f with direct := v }
  | .encrypted => { f with encrypted := v }
  | .unread => { f with unread := v }

/-- A room card element: the three dataset attributes (absent attributes are
`none`; HTML dataset values are strings) and the card's `style.display`. -/
structure Card where
  isDirect : Option String
  isEncrypted : Option String
  hasUnread : Option String
  display : String
deriving DecidableEq, Repr

/-- The raw dataset attribute of a card for a given dimension
(`card.dataset.isDirect` etc.). -/
def Card.attr (c : Card) (d : FilterDimension) : Option String :=
  match d with
  | .direct => c.isDirect
  | .encrypted => c.isEncrypted
  | .unread => c.hasUnread

/-- Replace the dataset attribute of a card for a given dimension. -/
def Card.setAttr (c : Card) (d : FilterDimension) (a : Option String) : Card :=
  match d with
  | .direct => { c with isDirect := a }
  | .encrypted => { c with isEncrypted := a }
  | .unread => { c with hasUnread := a }

/-- The boolean a dataset attribute contributes to the predicate:
the source compares `card.dataset.x === "true"` (a strict string
comparison, and `undefined === "true"` is `false`). -/
def tagOfAttr (a : Option String) : Bool :=
  a == some "true"

/-- The card's boolean tag for a dimension, as computed inline in
`applyFilters` (`card.dataset.isDirect === "true"` and so on). -/
def Card.tag (c : Card) (d : FilterDimension) : Bool :=
  match d with
  | .direct => c.isDirect == some "true"
  | .encrypted => c.isEncrypted == some "true"
  | .unread => c.hasUnread == some "true"

/-- `checkFilter(filter, value)`: `true` when the filter is `null`,
otherwise strict equality of the filter's boolean with the value. -/
def checkFilter (filter : Option Bool) (value : Bool) : Bool :=
  match filter with
  | none => true
  | some f => f == value

/-- The `showCard` expression computed in `applyFilters` for one card:
the conjunction of the three `checkFilter` calls. -/
def showCard (filters : Filters) (card : Card) : Bool :=
  checkFilter filters.direct (card.isDirect == some "true") &&
  checkFilter filters.encrypted (card.isEncrypted == some "true") &&
  checkFilter filters.unread (card.hasUnread == some "true")

/-- `applyFilters()`: for each card compute `showCard` and set
`card.style.display` to `"flex"` or `"none"`. -/
def applyFilters (filters : Filters) (roomCards : List Card) : List Card :=
  roomCards.map fun card =>
    { card with display := if showCard filters card then "flex" else "none" }

/-- A filter button: its CSS class list. -/
structure Button where
  classList : List String
deriving DecidableEq, Repr

/-- `classList.add`: adds the token unless it is already present. -/
def classListAdd (l : List String) (s : String) : List String :=
  if s ∈ l then l else l ++ [s]

/-- `updateButtonStyles(btn, filter)`: remove both classes, then add
`"active"` when the filter is `true` and `"inverted"` when it is `false`. -/
def updateButtonStyles (btn : Button) (filter : Option Bool) : Button :=
  let cl := btn.classList.filter fun c => !(c == "active" || c == "inverted")
  let cl := if filter = some true then classListAdd cl "active" else cl
  let cl := if filter = some false then classListAdd cl "inverted" else cl
  { classList := cl }

/-- The state transition of one filter value in `toggleFilter`:
`null -> true -> false -> null`. -/
def nextFilterValue (v : Option Bool) : Option Bool :=
  if v = none then some true
  else if v = some true then some false
  else none

/-- The whole application state: the `filters` object, the three filter
buttons and the room-card collection. -/
structure AppState where
  filters : Filters
  directRoomsBtn : Button
  encryptedRoomsBtn : Button
  unreadRoomsBtn : Button
  roomCards : List Card
deriving DecidableEq, Repr

/-- The button wired to a dimension (the event listeners pass
`directRoomsBtn` with `"direct"`, and so on). -/
def AppState.getBtn (st : AppState) (d : FilterDimension) : Button :=
  match d with
  | .direct => st.directRoomsBtn
  | .encrypted => st.encryptedRoomsBtn
  | .unread => st.unreadRoomsBtn

/-- Store the button wired to a dimension back into the state. -/
def AppState.setBtn (st : AppState) (d : FilterDimension) (b : Button) : AppState :=
  match d with
  | .direct => { st with directRoomsBtn := b }
  | .encrypted => { st with encryptedRoomsBtn := b }
  | .unread => { st with unreadRoomsBtn := b }

/-- `toggleFilter(filterName, btn)`: advance the named filter one step along
`null -> true -> false -> null`, restyle that dimension's button from the new
value, then run `applyFilters` over all cards. -/
def toggleFilter (st : AppState) (filterName : FilterDimension) : AppState :=
  let filters := st.filters.set filterName (nextFilterValue (st.filters.get filterName))
  let btn := updateButtonStyles (st.getBtn filterName) (filters.get filterName)
  let st := (st.setBtn filterName btn)
  { st with
      filters := filters
      roomCards := applyFilters filters st.roomCards }

/-! ## Spec-side predicate

The specification states visibility as: for every dimension, the state is
Unset, or the state's required boolean equals the card's tag value. -/

/-- Visibility as worded by the specification: the AND over the three
dimensions of "dimension is Unset OR the dimension's required boolean
equals the tag's value". -/
def specVisible (f : Filters) (c : Card) : Prop :=
  (f.direct = none ∨ f.direct = some (c.tag .direct)) ∧
  (f.encrypted = none ∨ f.encrypted = some (c.tag .encrypted)) ∧
  (f.unread = none ∨ f.unread = some (c.tag .unread))

instance (f : Filters) (c : Card) : Decidable (specVisible f c) := by
  unfold specVisible
  infer_instance

/-! ## Helper lemmas -/

/-- `checkFilter` decomposed into the spec's three cases. -/
theorem checkFilter_iff (s : Option Bool) (t : Bool) :
    checkFilter s t = true ↔
      s = none ∨ (s = some true ∧ t = true) ∨ (s = some false ∧ t = false) := by
  revert s t
  decide

theorem checkFilter_iff_eq (s : Option Bool) (t : Bool) :
    checkFilter s t = true ↔ s = none ∨ s = some t := by
  revert s t
  decide

/-- `showCard` as the conjunction of the three dimension checks. -/
theorem showCard_eq_checks (f : Filters) (c : Card) :
    showCard f c =
      (checkFilter (f.get .direct) (c.tag .direct) &&
       checkFilter (f.get .encrypted) (c.tag .encrypted) &&
       checkFilter (f.get .unread) (c.tag .unread)) := rfl

theorem showCard_iff_specVisible (f : Filters) (c : Card) :
    showCard f c = true ↔ specVisible f c := by
  simp only [showCard, specVisible, Bool.and_eq_true, Card.tag,
    checkFilter_iff_eq, Filters.get]
  tauto

theorem filters_get_set_same (f : Filters) (d : FilterDimension) (v : Option Bool) :
    (f.set d v).get d = v := by
  cases d <;> rfl

theorem toggleFilter_get_filters (st : AppState) (d : FilterDimension) :
    (toggleFilter st d).filters =
      st.filters.set d (nextFilterValue (st.filters.get d)) := by
  cases d <;> rfl

theorem toggleFilter_get_roomCards (st : AppState) (d : FilterDimension) :
    (toggleFilter st d).roomCards =
      applyFilters (toggleFilter st d).filters st.roomCards := by
  cases d <;> rfl

theorem toggleFilter_get_btn (st : AppState) (d : FilterDimension) :
    (toggleFilter st d).getBtn d =
      updateButtonStyles (st.getBtn d) ((toggleFilter st d).filters.get d) := by
  cases d <;> rfl

/-- The cycle as worded by the specification:
Unset -> Require -> Exclude -> Unset. -/
def specCycleNext (v : Option Bool) : Option Bool :=
  match v with
  | none => some true
  | some true => some false
  | some false => none

theorem display_if_eq (f : Filters) (c : Card) :
    (if showCard f c then "flex" else "none") =
      (if specVisible f c then "flex" else "none") := by
  by_cases h : specVisible f c
  · rw [if_pos h, if_pos ((showCard_iff_specVisible f c).2 h)]
  · rw [if_neg h, if_neg (fun hb => h ((showCard_iff_specVisible f c).1 hb))]

/-! ## Claim theorems -/

/-- C1: `showCard` is true iff, for each of the three dimensions, the state
is Unset (`null`), or Require (`true`) and the card's tag is true, or
Exclude (`false`) and the tag is false. -/
theorem showCard_iff_dimension_cases (f : Filters) (c : Card) :
    showCard f c = true ↔
      ∀ d : FilterDimension,
        f.get d = none ∨
        (f.get d = some true ∧ c.tag d = true) ∨
        (f.get d = some false ∧ c.tag d = false) := by
  rw [showCard_eq_checks]
  simp only [Bool.and_eq_true, checkFilter_iff]
  constructor
  · rintro ⟨⟨h1, h2⟩, h3⟩ d
    cases d
    · exact h1
    · exact h2
    · exact h3
  · intro h
    exact ⟨⟨h .direct, h .encrypted⟩, h .unread⟩

/-- C2: one `toggleFilter` advances the toggled dimension one step along the
cycle Unset -> Require -> Exclude -> Unset, and three consecutive toggles
restore the dimension's state. -/
theorem toggleFilter_cycle (st : AppState) (d : FilterDimension) :
    (toggleFilter st d).filters.get d = specCycleNext (st.filters.get d) ∧
    (toggleFilter (toggleFilter (toggleFilter st d) d) d).filters.get d =
      st.filters.get d := by
  have hstep : ∀ v, nextFilterValue v = specCycleNext v := by decide
  have hthree : ∀ v, nextFilterValue (nextFilterValue (nextFilterValue v)) = v := by
    decide
  simp only [toggleFilter_get_filters, filters_get_set_same]
  exact ⟨hstep _, hthree _⟩

/-- C3: `toggleFilter` on one dimension leaves the filter state of every
other dimension unchanged. -/
theorem toggleFilter_frame (st : AppState) (d e : FilterDimension) (h : e ≠ d) :
    (toggleFilter st d).filters.get e = st.filters.get e := by
  rw [toggleFilter_get_filters]
  cases d <;> cases e <;> first | rfl | exact absurd rfl h

def sampleButton : Button := ⟨["filter-btn"]⟩

def sampleState : AppState :=
  ⟨⟨none, none, none⟩, sampleButton, sampleButton, sampleButton, []⟩

/-- Witness for C3: toggling `encrypted` leaves `direct` unchanged on a
concrete state. -/
theorem toggleFilter_frame_witness :
    (toggleFilter sampleState .encrypted).filters.get .direct =
      sampleState.filters.get .direct :=
  toggleFilter_frame sampleState .encrypted .direct (by decide)

/-- C4: `applyFilters` is idempotent: applying it twice with the same filter
state gives the same card list as applying it once. -/
theorem applyFilters_idempotent (f : Filters) (cards : List Card) :
    applyFilters f (applyFilters f cards) = applyFilters f cards := by
  simp only [applyFilters, List.map_map]
  exact List.map_congr_left fun c _ => rfl

/-- C5: after every `toggleFilter`, every card's display is recomputed in
full and equals the specification's AND-over-dimensions predicate. -/
theorem toggleFilter_visibility_invariant (st : AppState) (d : FilterDimension) :
    (toggleFilter st d).roomCards =
      st.roomCards.map fun c =>
        { c with display :=
            if specVisible (toggleFilter st d).filters c then "flex" else "none" } := by
  rw [toggleFilter_get_roomCards]
  unfold applyFilters
  exact List.map_congr_left fun c _ => by rw [display_if_eq]

/-- C6: a card whose dataset attribute for a dimension is absent has tag
`false` there: it fails a Require constraint on that dimension and passes an
Exclude constraint on it (the predicate is total, so no error is raised). -/
theorem missing_tag_defaults_false (f : Filters) (c : Card) (d : FilterDimension)
    (h : c.attr d = none) :
    c.tag d = false ∧
    (f.get d = some true → showCard f c = false) ∧
    (f.get d = some false → checkFilter (f.get d) (c.tag d) = true) := by
  have htag : c.tag d = false := by
    cases d <;> simp_all [Card.tag, Card.attr]
  refine ⟨htag, ?_, ?_⟩
  · intro hreq
    rw [showCard_eq_checks]
    cases d <;>
      simp_all [Filters.get, Card.tag, checkFilter]
  · intro hexc
    rw [htag, hexc]
    rfl

def untaggedCard : Card := ⟨none, none, none, "flex"⟩

/-- Witness for C6 at a concrete untagged card. -/
theorem missing_tag_defaults_false_witness :
    untaggedCard.tag .direct = false ∧
    ((Filters.mk (some true) none none).get .direct = some true →
      showCard ⟨some true, none, none⟩ untaggedCard = false) ∧
    ((Filters.mk (some true) none none).get .direct = some false →
      checkFilter ((Filters.mk (some true) none none).get .direct)
        (untaggedCard.tag .direct) = true) :=
  missing_tag_defaults_false ⟨some true, none, none⟩ untaggedCard .direct rfl

def card1 : Card := ⟨some "true", some "false", some "true", "flex"⟩

def card2 : Card := ⟨some "false", some "true", some "false", "flex"⟩

def filtersB : Filters := ⟨some true, none, none⟩

def filtersC : Filters := ⟨some true, some false, none⟩

/-- C7: with direct = Require and the rest Unset, only card1 is shown; after
additionally setting encrypted = Exclude, card1 is still shown and card2
hidden. -/
theorem scenario_require_direct_exclude_encrypted :
    ((applyFilters filtersB [card1, card2]).map Card.display = ["flex", "none"]) ∧
    ((applyFilters filtersC [card1, card2]).map Card.display = ["flex", "none"]) := by
  constructor <;> rfl

/-- C8: each card's result is a function of the filter state and that card's
own tags alone (applyFilters is a per-card map), and evaluating a permuted
card list permutes the results accordingly. -/
theorem applyFilters_deterministic_order_independent (f : Filters)
    (cards cards' : List Card) (h : cards.Perm cards') :
    applyFilters f cards =
      cards.map (fun c =>
        { c with display := if showCard f c then "flex" else "none" }) ∧
    (applyFilters f cards).Perm (applyFilters f cards') :=
  ⟨rfl, h.map _⟩

/-- Witness for C8 on a concrete two-card list and its transposition. -/
theorem applyFilters_deterministic_order_independent_witness :
    (applyFilters filtersB [card1, card2] =
      [card1, card2].map (fun c =>
        { c with display := if showCard filtersB c then "flex" else "none" })) ∧
    (applyFilters filtersB [card1, card2]).Perm
      (applyFilters filtersB [card2, card1]) :=
  applyFilters_deterministic_order_independent filtersB [card1, card2]
    [card2, card1] (List.Perm.swap card2 card1 [])

theorem updateButtonStyles_mem (btn : Button) (v : Option Bool) :
    (("active" ∈ (updateButtonStyles btn v).classList) ↔ v = some true) ∧
    (("inverted" ∈ (updateButtonStyles btn v).classList) ↔ v = some false) := by
  rcases v with _ | b
  · simp [updateButtonStyles, classListAdd, List.mem_filter]
  · cases b <;> simp [updateButtonStyles, classListAdd, List.mem_filter]

/-- C9: after a toggle, the toggled dimension's button carries "active" iff
the new state is Require, "inverted" iff it is Exclude, and never both. -/
theorem toggleFilter_button_styles (st : AppState) (d : FilterDimension) :
    (("active" ∈ ((toggleFilter st d).getBtn d).classList ↔
        (toggleFilter st d).filters.get d = some true) ∧
     ("inverted" ∈ ((toggleFilter st d).getBtn d).classList ↔
        (toggleFilter st d).filters.get d = some false)) ∧
    ¬("active" ∈ ((toggleFilter st d).getBtn d).classList ∧
      "inverted" ∈ ((toggleFilter st d).getBtn d).classList) := by
  obtain ⟨h1, h2⟩ :=
    updateButtonStyles_mem (st.getBtn d) ((toggleFilter st d).filters.get d)
  rw [toggleFilter_get_btn]
  refine ⟨⟨h1, h2⟩, ?_⟩
  rintro ⟨ha, hb⟩
  have ht := h1.1 ha
  have hf := h2.1 hb
  rw [ht] at hf
  exact Bool.noConfusion (Option.some.inj hf)

/-- C10: an absent dataset attribute behaves exactly like the string
"false" for visibility, and an attribute contributes true to the predicate
iff its string value is exactly "true". -/
theorem missing_attr_behaves_like_false_string (f : Filters) (c : Card)
    (d : FilterDimension) :
    showCard f (c.setAttr d none) = showCard f (c.setAttr d (some "false")) ∧
    (∀ a : Option String, tagOfAttr a = true ↔ a = some "true") ∧
    c.tag d = tagOfAttr (c.attr d) := by
  refine ⟨?_, ?_, ?_⟩
  · cases d <;> simp [showCard, Card.setAttr]
  · intro a
    rcases a with _ | s
    · simp [tagOfAttr]
    · simp [tagOfAttr]
  · cases d <;> rfl
